import Mathlib

/-
Verification development for the aadhaar-darpan ETL pipeline
(src/etl_pipeline/ingest_data.py). The Python source is shallowly embedded:
DataFrame cells become the inductive type Cell, numeric values become
rationals (exact arithmetic standing in for double precision), rows become
structures, and the pandas groupby / merge / clip pipeline becomes pure
functions on lists and finsets.
-/

namespace Darpan

/-- Whitespace characters recognised by Python's default str.strip and
str.split, restricted to the ASCII range used by the data. -/
def isPySpace (c : Char) : Bool :=
  c == ' ' || c == '\t' || c == '\n' || c == '\r' ||
  c == Char.ofNat 11 || c == Char.ofNat 12

/-- Uppercase ASCII letter test, the character class kept by the source's
re.sub removal of everything outside A-Z and whitespace. -/
def isAZ (c : Char) : Bool :=
  decide ('A' ≤ c) && decide (c ≤ 'Z')

/-- Drops leading and trailing whitespace, as Python's str.strip does. -/
def trimWS (l : List Char) : List Char :=
  ((l.dropWhile isPySpace).reverse.dropWhile isPySpace).reverse

/-- Accumulator pass behind pySplitWords: splits on whitespace runs,
discarding empty fragments, as Python's str.split() with no argument. -/
def splitWSAux : List Char → List Char → List (List Char)
  | [], acc => if acc.isEmpty then [] else [acc.reverse]
  | c :: t, acc =>
    if isPySpace c then
      if acc.isEmpty then splitWSAux t [] else acc.reverse :: splitWSAux t []
    else splitWSAux t (c :: acc)

/-- Whitespace-run splitting of a character list (Python str.split()). -/
def pySplitWords (l : List Char) : List (List Char) :=
  splitWSAux l []

/-- Embeds the source's whitespace collapse: " ".join(s.split()). -/
def collapseWS (l : List Char) : List Char :=
  List.intercalate [' '] (pySplitWords l)

/-- Embeds the cleaning chain of ingest_data.py lines 46-48:
s = name.upper().strip().replace("&", "AND");
s = re.sub(non-letter-non-space, "", s); s = " ".join(s.split()). -/
def cleanText (s : String) : String :=
  let u := s.data.map Char.toUpper
  let t := trimWS u
  let r := t.flatMap (fun c => if c == '&' then ['A', 'N', 'D'] else [c])
  let f := r.filter (fun c => isAZ c || isPySpace c)
  String.mk (collapseWS f)

/-- The OFFICIAL_ENTITIES list of ingest_data.py lines 13-20: the 36
canonical states and union territories, in source order. -/
def OFFICIAL_ENTITIES : List String :=
  ["ANDAMAN AND NICOBAR ISLANDS", "ANDHRA PRADESH", "ARUNACHAL PRADESH",
   "ASSAM", "BIHAR", "CHANDIGARH", "CHHATTISGARH",
   "DADRA AND NAGAR HAVELI AND DAMAN AND DIU", "DELHI", "GOA", "GUJARAT",
   "HARYANA", "HIMACHAL PRADESH", "JAMMU AND KASHMIR", "JHARKHAND",
   "KARNATAKA", "KERALA", "LADAKH", "LAKSHADWEEP", "MADHYA PRADESH",
   "MAHARASHTRA", "MANIPUR", "MEGHALAYA", "MIZORAM", "NAGALAND", "ODISHA",
   "PUDUCHERRY", "PUNJAB", "RAJASTHAN", "SIKKIM", "TAMIL NADU", "TELANGANA",
   "TRIPURA", "UTTAR PRADESH", "UTTARAKHAND", "WEST BENGAL"]

/-- The PERMUTATION_MAP alias table of ingest_data.py lines 23-39, as an
association list preserving the source's entries. -/
def PERMUTATION_MAP : List (String × String) :=
  [("ANDAMAN NICOBAR", "ANDAMAN AND NICOBAR ISLANDS"),
   ("ANDAMAN & NICOBAR", "ANDAMAN AND NICOBAR ISLANDS"),
   ("ANDAAMAN NICOBAR", "ANDAMAN AND NICOBAR ISLANDS"),
   ("ANDAMAN NICOBAR ISLANDS", "ANDAMAN AND NICOBAR ISLANDS"),
   ("THE DADRA AND NAGAR HAVELI AND DAMAN AND DIU",
    "DADRA AND NAGAR HAVELI AND DAMAN AND DIU"),
   ("DADRA NAGAR HAVELI", "DADRA AND NAGAR HAVELI AND DAMAN AND DIU"),
   ("DAMAN AND DIU", "DADRA AND NAGAR HAVELI AND DAMAN AND DIU"),
   ("ORISSA", "ODISHA"),
   ("PONDICHERRY", "PUDUCHERRY"),
   ("UTTARANCHAL", "UTTARAKHAND"),
   ("CHHATISGARH", "CHHATTISGARH"),
   ("WESTBENGAL", "WEST BENGAL"),
   ("WEST BANGAL", "WEST BENGAL"),
   ("WEST BENGLI", "WEST BENGAL"),
   ("JAMMU KASHMIR", "JAMMU AND KASHMIR")]

/-- TELANGANA_DISTRICTS of ingest_data.py line 41: the district override
list behind the state reassignment at line 75. -/
def TELANGANA_DISTRICTS : List String :=
  ["ADILABAD", "HYDERABAD", "KARIMNAGAR", "KHAMMAM", "MAHABUBNAGAR",
   "MEDAK", "NALGONDA", "NIZAMABAD", "RANGAREDDI", "WARANGAL"]

/-- Contiguous-substring test on character lists, the meaning of Python's
in operator on strings (the empty list is an infix of everything). -/
def infixOf (a : List Char) : List Char → Bool
  | [] => a.isEmpty
  | c :: t => a.isPrefixOf (c :: t) || infixOf a t

/-- First-match lookup in the alias table (Python dict lookup; the table's
keys are distinct, so first-match agrees with dict semantics). -/
def aliasLookup (s : String) : Option String :=
  (PERMUTATION_MAP.find? (fun p => p.1 == s)).map (fun p => p.2)

/-- The bidirectional containment fallback of ingest_data.py lines 51-52:
the first official entity, in list order, that contains or is contained in
the cleaned text. -/
def containMatch (s : String) : Option String :=
  OFFICIAL_ENTITIES.find? (fun off => infixOf off.data s.data || infixOf s.data off.data)

/-- One DataFrame cell as read from a source CSV: a text value, a numeric
value, or a missing value (NaN). -/
inductive Cell where
  | str (s : String)
  | num (q : ℚ)
  | nan
deriving DecidableEq

/-- Embeds canonicalize of ingest_data.py lines 43-53: non-strings and
digit-bearing strings become the sentinel "REMOVE_ME"; otherwise the text is
cleaned and, for the state role, resolved through the alias table and then
the containment fallback. -/
def canonicalize (name : Cell) (isState : Bool) : String :=
  match name with
  | Cell.str s =>
    if s.data.any Char.isDigit then "REMOVE_ME"
    else
      let c := cleanText s
      if isState then
        match aliasLookup c with
        | some v => v
        | none =>
          match containMatch c with
          | some off => off
          | none => c
      else c
  | _ => "REMOVE_ME"

/-- Digit-run parser used by the numeric and date coercions below. -/
def parseDigits (l : List Char) : Option Nat :=
  if l.isEmpty then none
  else if l.all Char.isDigit then
    some (l.foldl (fun n c => n * 10 + (c.toNat - 48)) 0)
  else none

/-- Decimal-literal parser modelling pd.to_numeric on a text cell: optional
sign, integer part, optional fractional part; anything else fails (and is
then coerced to NaN by errors='coerce'). -/
def parseDecimal (s : String) : Option ℚ :=
  let t := trimWS s.data
  let sign := t.head? == some '-'
  let t := if t.head? == some '-' || t.head? == some '+' then t.tail else t
  let ip := t.takeWhile (fun c => c != '.')
  let rest := t.dropWhile (fun c => c != '.')
  let mag : Option ℚ :=
    match rest with
    | [] => (parseDigits ip).map (fun n => (n : ℚ))
    | _ :: fp =>
      if fp.any (fun c => c == '.') then none
      else if ip.isEmpty && fp.isEmpty then none
      else
        match parseDigits (if ip.isEmpty then ['0'] else ip),
              parseDigits (if fp.isEmpty then ['0'] else fp) with
        | some n, some m => some ((n : ℚ) + (m : ℚ) / ((10 : ℚ) ^ fp.length))
        | _, _ => none
  mag.map (fun q => if sign then -q else q)

/-- Embeds pd.to_numeric(col, errors='coerce').fillna(0) applied to one
cell: numbers pass through, unparseable text and missing values become 0. -/
def cellToNum (c : Cell) : ℚ :=
  match c with
  | Cell.num q => q
  | Cell.str s => (parseDecimal s).getD 0
  | Cell.nan => 0

/-- Embeds pd.to_datetime(col, dayfirst=True, errors='coerce') followed by
dt.to_period('M') for day-month-year text dates separated by '-' or '/':
the month key is year * 12 + (month - 1); unparseable cells become none,
the embedding of NaT. -/
def parseMonthKey (c : Cell) : Option Nat :=
  match c with
  | Cell.str s =>
    match (s.data.splitOnP (fun ch => ch == '-' || ch == '/')) with
    | [d, m, y] =>
      match parseDigits d, parseDigits m, parseDigits y with
      | some dd, some mm, some yy =>
        if 1 ≤ dd && dd ≤ 31 && 1 ≤ mm && mm ≤ 12 then
          some (yy * 12 + (mm - 1))
        else none
      | _, _, _ => none
    | _ => none
  | _ => Option.none

/-- One raw CSV row after header normalization: the union of the columns
the pipeline reads across the three categories; a category's file simply
carries NaN in the columns it lacks. -/
structure RawRow where
  state : Cell
  district : Cell
  date : Cell
  age_0_5 : Cell
  age_5_17 : Cell
  age_18_greater : Cell
  demo_age_17_ : Cell
  bio_age_17_ : Cell
deriving DecidableEq

/-- One row after the in-place cleaning loop of ingest_data.py lines 71-78:
canonicalized state and district, Telangana override applied, month key
parsed; the numeric cells are carried unchanged. -/
structure CleanRow where
  state : String
  district : String
  month : Option Nat
  age_0_5 : Cell
  age_5_17 : Cell
  age_18_greater : Cell
  demo_age_17_ : Cell
  bio_age_17_ : Cell
deriving DecidableEq

/-- Embeds ingest_data.py lines 73-78 for one row: canonicalize state and
district, overwrite the state with "TELANGANA" when the cleaned district is
on the override list (line 75), and derive the month key. -/
def cleanRow (r : RawRow) : CleanRow :=
  let d := canonicalize r.district false
  { state := if TELANGANA_DISTRICTS.contains d then "TELANGANA"
             else canonicalize r.state true
    district := d
    month := parseMonthKey r.date
    age_0_5 := r.age_0_5
    age_5_17 := r.age_5_17
    age_18_greater := r.age_18_greater
    demo_age_17_ := r.demo_age_17_
    bio_age_17_ := r.bio_age_17_ }

/-- The enrolment total feature of ingest_data.py lines 81-83. -/
def totalFeat (r : CleanRow) : ℚ :=
  cellToNum r.age_0_5 + cellToNum r.age_5_17 + cellToNum r.age_18_greater

/-- The enrolment youth feature of ingest_data.py lines 85-86. -/
def youthFeat (r : CleanRow) : ℚ :=
  cellToNum r.age_0_5 + cellToNum r.age_5_17

/-- The demographic-update feature: the coerced demo_age_17_ column. -/
def demoFeat (r : CleanRow) : ℚ := cellToNum r.demo_age_17_

/-- The biometric-update feature: the coerced bio_age_17_ column. -/
def bioFeat (r : CleanRow) : ℚ := cellToNum r.bio_age_17_

/-- Row membership in the group of a (state, district) key. -/
def keyMatch (k : String × String) (r : CleanRow) : Bool :=
  r.state == k.1 && r.district == k.2

/-- The rows of one (state, district) group. -/
def rowsFor (rows : List CleanRow) (k : String × String) : List CleanRow :=
  rows.filter (fun r => keyMatch k r)

/-- The distinct month keys appearing in a group; rows whose date failed to
parse (NaT) are dropped, as pandas groupby drops null keys. -/
def monthsOf (rows : List CleanRow) (k : String × String) : Finset Nat :=
  ((rowsFor rows k).filterMap (fun r => r.month)).toFinset

/-- The per-month sum of a feature within a group: the first groupby of
ingest_data.py lines 89, 92, 95 (group on state, district, month_key and
sum). -/
def monthSum (rows : List CleanRow) (k : String × String) (m : Nat)
    (f : CleanRow → ℚ) : ℚ :=
  (((rowsFor rows k).filter (fun r => r.month == some m)).map f).sum

/-- The mean over months of the per-month sums: the second groupby of
ingest_data.py lines 90, 93, 96 (group on state, district and take the mean
of the monthly values). -/
def meanMonthly (rows : List CleanRow) (k : String × String)
    (f : CleanRow → ℚ) : ℚ :=
  (∑ m ∈ monthsOf rows k, monthSum rows k m f) / (monthsOf rows k).card

/-- The sum of a feature over every row of a group that carries a parseable
date, with no month grouping: the quantity the flat-summation reading of
the aggregation would produce. -/
def flatSum (rows : List CleanRow) (k : String × String)
    (f : CleanRow → ℚ) : ℚ :=
  (((rowsFor rows k).filter (fun r => r.month.isSome)).map f).sum

/-- The (state, district) keys a category's aggregate contains: the keys of
rows whose month parsed (rows with NaT dates vanish in the first groupby). -/
def keysOf (rows : List CleanRow) : Finset (String × String) :=
  (rows.filterMap
    (fun r => if r.month.isSome then some (r.state, r.district) else none)).toFinset

/-- One row of the final merged table of ingest_data.py lines 99-106. The
ratio field is an Option: none embeds the IEEE NaN that the float division
of line 103 produces when its denominator vanishes, which Series.clip
propagates and to_json publishes as null. -/
structure MetricsRow where
  state : String
  district : String
  total_enrolment : ℚ
  youth_count : ℚ
  demo_vol : ℚ
  bio_vol : ℚ
  ratio_clamped : Option ℚ
  mobile_update_volume : ℚ
deriving DecidableEq

/-- Embeds pandas Series.clip(lo, hi) on one finite value. -/
def clip (lo hi x : ℚ) : ℚ := max lo (min x hi)

/-- Embeds the float expression youth_count / (total_enrolment + 1) of
ingest_data.py line 103 followed by Series.clip(0.12, 0.98), keeping the
IEEE special cases that exact rationals lack: when the denominator is the
float zero (total_enrolment exactly -1), 0.0 / 0.0 is NaN — which clip
propagates (none) — and a nonzero numerator gives plus or minus infinity,
which clip maps to the nearer bound; a nonzero denominator divides exactly
and is clipped. -/
def ratioValue (yc te : ℚ) : Option ℚ :=
  if te + 1 = 0 then
    if yc = 0 then none
    else if 0 < yc then some (98 / 100)
    else some (12 / 100)
  else some (clip (12 / 100) (98 / 100) (yc / (te + 1)))

/-- The merged output row for one key of the enrolment aggregate: left join
with the demographic and biometric aggregates, fillna(0) for keys those
aggregates lack (line 99), the clipped ratio of line 103 and the update
volume of line 104. -/
def metricsAt (e d b : List CleanRow) (k : String × String) : MetricsRow :=
  let te := meanMonthly e k totalFeat
  let yc := meanMonthly e k youthFeat
  let dv := if k ∈ keysOf d then meanMonthly d k demoFeat else 0
  let bv := if k ∈ keysOf b then meanMonthly b k bioFeat else 0
  { state := k.1
    district := k.2
    total_enrolment := te
    youth_count := yc
    demo_vol := dv
    bio_vol := bv
    ratio_clamped := ratioValue yc te
    mobile_update_volume := dv + bv }

/-- The keys surviving the entity filter of line 100: enrolment keys whose
state is one of the official entities. -/
def finalKeys (e : List CleanRow) : Finset (String × String) :=
  (keysOf e).filter (fun k => k.1 ∈ OFFICIAL_ENTITIES)

/-- The final table over cleaned rows: one MetricsRow per surviving key. -/
def finalTable (e d b : List CleanRow) : Finset MetricsRow :=
  (finalKeys e).image (metricsAt e d b)

/-- The full per-row pipeline from raw rows to the published MetricsRow
set: cleaning loop, per-category aggregation, merge, filter, derived
columns. -/
def pipelineRows (e d b : List RawRow) : Finset MetricsRow :=
  finalTable (e.map cleanRow) (d.map cleanRow) (b.map cleanRow)

/-- Embeds load_chunked_data of ingest_data.py lines 55-59: none stands for
the column-less empty DataFrame returned when the glob finds no files,
some stands for the concatenation of the files' rows. -/
def load_chunked_data (files : List (List RawRow)) : Option (List RawRow) :=
  if files.isEmpty then none else some files.flatten

/-- Outcome of one invocation of main (ingest_data.py lines 61-108). -/
inductive RunResult where
  | ok (table : Finset MetricsRow)
  | abortedEmpty
  | keyError
deriving DecidableEq

/-- DataFrame emptiness as main's guard sees it: a column-less frame (no
files) and a zero-row frame are both empty. -/
def isEmptyLoad : Option (List RawRow) → Bool
  | none => true
  | some l => l.isEmpty

/-- Embeds main of ingest_data.py on already-loaded category data: the
empty guard of line 67 aborts when enrolment or demographic data is empty;
a column-less biometric frame (its directory absent or file-less) makes the
cleaning loop's column access raise KeyError; otherwise the pipeline runs
to completion. -/
def runMain (e d b : Option (List RawRow)) : RunResult :=
  if isEmptyLoad e || isEmptyLoad d then RunResult.abortedEmpty
  else
    match b with
    | none => RunResult.keyError
    | some bl => RunResult.ok (pipelineRows (e.getD []) (d.getD []) bl)

theorem filter_month_eq_nil {t : List CleanRow} {m : Nat}
    (h : m ∉ (t.filterMap (fun r => r.month)).toFinset) :
    t.filter (fun r => r.month == some m) = [] := by
  simp only [List.mem_toFinset, List.mem_filterMap, not_exists, not_and] at h
  refine List.filter_eq_nil_iff.mpr (fun r hr => ?_)
  have := h r hr
  simp only [beq_iff_eq]
  exact this

theorem sum_month_filter_eq (l : List CleanRow) (f : CleanRow → ℚ) :
    ∑ m ∈ (l.filterMap (fun r => r.month)).toFinset,
        ((l.filter (fun r => r.month == some m)).map f).sum
      = ((l.filter (fun r => r.month.isSome)).map f).sum := by
  induction l with
  | nil => simp
  | cons r t ih =>
    cases hm : r.month with
    | none =>
      simp only [List.filterMap_cons, hm]
      have hstep : ∀ m : Nat, List.filter (fun r => r.month == some m) (r :: t)
          = t.filter (fun r => r.month == some m) := by
        intro m
        rw [List.filter_cons, if_neg (by simp [hm])]
      rw [Finset.sum_congr rfl (fun m _ => by rw [hstep m]), ih,
        List.filter_cons, if_neg (by simp [hm])]
    | some m0 =>
      have hfc : ∀ m : Nat, List.filter (fun r => r.month == some m) (r :: t)
          = if m = m0 then r :: t.filter (fun r => r.month == some m)
            else t.filter (fun r => r.month == some m) := by
        intro m
        by_cases hme : m = m0
        · rw [List.filter_cons, if_pos (by simp [hm, hme]), if_pos hme]
        · rw [List.filter_cons, if_neg (by simp [hm, Ne.symm hme]), if_neg hme]
      simp only [List.filterMap_cons, hm, List.toFinset_cons]
      have hsummand : ∀ m ∈ insert m0 (t.filterMap (fun r => r.month)).toFinset,
          ((List.filter (fun r => r.month == some m) (r :: t)).map f).sum
            = (if m = m0 then f r else 0)
              + ((t.filter (fun r => r.month == some m)).map f).sum := by
        intro m _
        rw [hfc m]
        by_cases hme : m = m0 <;> simp [hme]
      rw [Finset.sum_congr rfl hsummand, Finset.sum_add_distrib,
        Finset.sum_ite_eq' (insert m0 (t.filterMap (fun r => r.month)).toFinset)
          m0 (fun _ => f r),
        if_pos (Finset.mem_insert_self m0 _)]
      have hins : ∑ m ∈ insert m0 (t.filterMap (fun r => r.month)).toFinset,
          ((t.filter (fun r => r.month == some m)).map f).sum
            = ∑ m ∈ (t.filterMap (fun r => r.month)).toFinset,
                ((t.filter (fun r => r.month == some m)).map f).sum := by
        by_cases hmem : m0 ∈ (t.filterMap (fun r => r.month)).toFinset
        · rw [Finset.insert_eq_self.mpr hmem]
        · rw [Finset.sum_insert hmem, filter_month_eq_nil hmem]
          simp
      rw [hins, ih, List.filter_cons, if_pos (by simp [hm])]
      simp

theorem meanMonthly_eq_flatSum_div (rows : List CleanRow) (k : String × String)
    (f : CleanRow → ℚ) :
    meanMonthly rows k f = flatSum rows k f / (monthsOf rows k).card := by
  unfold meanMonthly flatSum monthsOf monthSum
  rw [sum_month_filter_eq]

theorem mem_keysOf {rows : List CleanRow} {k : String × String} :
    k ∈ keysOf rows ↔ ∃ r ∈ rows, r.month.isSome ∧ (r.state, r.district) = k := by
  simp only [keysOf, List.mem_toFinset, List.mem_filterMap]
  constructor
  · rintro ⟨r, hr, hif⟩
    by_cases hs : r.month.isSome
    · rw [if_pos hs] at hif
      exact ⟨r, hr, hs, Option.some.inj hif⟩
    · rw [if_neg hs] at hif
      exact absurd hif (by simp)
  · rintro ⟨r, hr, hs, hk⟩
    exact ⟨r, hr, by rw [if_pos hs, hk]⟩

theorem monthsOf_nonempty_of_mem_keysOf {rows : List CleanRow}
    {k : String × String} (h : k ∈ keysOf rows) : (monthsOf rows k).Nonempty := by
  obtain ⟨r, hr, hs, hk⟩ := mem_keysOf.mp h
  cases hmo : r.month with
  | none => rw [hmo] at hs; exact absurd hs (by simp)
  | some m =>
    refine ⟨m, ?_⟩
    simp only [monthsOf, rowsFor, List.mem_toFinset, List.mem_filterMap]
    refine ⟨r, List.mem_filter.mpr ⟨hr, ?_⟩, hmo⟩
    simp [keyMatch, ← hk]

theorem mem_pipelineRows {e d b : List RawRow} {row : MetricsRow} :
    row ∈ pipelineRows e d b
      ↔ ∃ k ∈ finalKeys (e.map cleanRow),
          metricsAt (e.map cleanRow) (d.map cleanRow) (b.map cleanRow) k = row := by
  simp [pipelineRows, finalTable, Finset.mem_image]

theorem mem_finalKeys {e : List CleanRow} {k : String × String} :
    k ∈ finalKeys e ↔ k ∈ keysOf e ∧ k.1 ∈ OFFICIAL_ENTITIES := by
  simp [finalKeys, Finset.mem_filter]

theorem clip_lower_bound (lo hi x : ℚ) : lo ≤ clip lo hi x :=
  le_max_left lo (min x hi)

theorem clip_upper_bound {lo hi : ℚ} (h : lo ≤ hi) (x : ℚ) : clip lo hi x ≤ hi :=
  max_le h (min_le_right x hi)

theorem flatten_perm_of_perm {α : Type} {l l' : List (List α)} (h : l.Perm l') :
    l.flatten.Perm l'.flatten := by
  induction h with
  | nil => exact List.Perm.refl _
  | cons x _ ih => simpa using ih.append_left x
  | swap x y l =>
    simp only [List.flatten_cons]
    rw [← List.append_assoc y x, ← List.append_assoc x y]
    exact List.perm_append_comm.append_right l.flatten
  | trans _ _ ih1 ih2 => exact ih1.trans ih2

theorem monthsOf_perm {e e' : List CleanRow} (h : e.Perm e') (k : String × String) :
    monthsOf e k = monthsOf e' k :=
  List.toFinset_eq_of_perm _ _ ((h.filter _).filterMap _)

theorem monthSum_perm {e e' : List CleanRow} (h : e.Perm e') (k : String × String)
    (m : Nat) (f : CleanRow → ℚ) : monthSum e k m f = monthSum e' k m f :=
  (((h.filter _).filter _).map f).sum_eq

theorem meanMonthly_perm {e e' : List CleanRow} (h : e.Perm e') (k : String × String)
    (f : CleanRow → ℚ) : meanMonthly e k f = meanMonthly e' k f := by
  unfold meanMonthly
  rw [monthsOf_perm h k, Finset.sum_congr rfl (fun m _ => monthSum_perm h k m f)]

theorem keysOf_perm {e e' : List CleanRow} (h : e.Perm e') : keysOf e = keysOf e' :=
  List.toFinset_eq_of_perm _ _ (h.filterMap _)

theorem metricsAt_perm {e e' d d' b b' : List CleanRow} (he : e.Perm e')
    (hd : d.Perm d') (hb : b.Perm b') (k : String × String) :
    metricsAt e d b k = metricsAt e' d' b' k := by
  unfold metricsAt
  rw [meanMonthly_perm he k totalFeat, meanMonthly_perm he k youthFeat,
    keysOf_perm hd, keysOf_perm hb, meanMonthly_perm hd k demoFeat,
    meanMonthly_perm hb k bioFeat]

theorem finalTable_perm {e e' d d' b b' : List CleanRow} (he : e.Perm e')
    (hd : d.Perm d') (hb : b.Perm b') : finalTable e d b = finalTable e' d' b' := by
  unfold finalTable finalKeys
  rw [keysOf_perm he, funext (metricsAt_perm he hd hb)]

theorem pipelineRows_perm {e e' d d' b b' : List RawRow} (he : e.Perm e')
    (hd : d.Perm d') (hb : b.Perm b') :
    pipelineRows e d b = pipelineRows e' d' b' :=
  finalTable_perm (he.map cleanRow) (hd.map cleanRow) (hb.map cleanRow)

theorem metricsAt_state (e d b : List CleanRow) (k : String × String) :
    (metricsAt e d b k).state = k.1 := rfl

theorem metricsAt_district (e d b : List CleanRow) (k : String × String) :
    (metricsAt e d b k).district = k.2 := rfl

theorem metricsAt_total (e d b : List CleanRow) (k : String × String) :
    (metricsAt e d b k).total_enrolment = meanMonthly e k totalFeat := rfl

theorem metricsAt_youth (e d b : List CleanRow) (k : String × String) :
    (metricsAt e d b k).youth_count = meanMonthly e k youthFeat := rfl

theorem metricsAt_demo_vol (e d b : List CleanRow) (k : String × String) :
    (metricsAt e d b k).demo_vol
      = if k ∈ keysOf d then meanMonthly d k demoFeat else 0 := rfl

theorem metricsAt_bio_vol (e d b : List CleanRow) (k : String × String) :
    (metricsAt e d b k).bio_vol
      = if k ∈ keysOf b then meanMonthly b k bioFeat else 0 := rfl

theorem metricsAt_mobile (e d b : List CleanRow) (k : String × String) :
    (metricsAt e d b k).mobile_update_volume
      = (if k ∈ keysOf d then meanMonthly d k demoFeat else 0)
        + (if k ∈ keysOf b then meanMonthly b k bioFeat else 0) := rfl

theorem metricsAt_ratio (e d b : List CleanRow) (k : String × String) :
    (metricsAt e d b k).ratio_clamped
      = ratioValue (meanMonthly e k youthFeat) (meanMonthly e k totalFeat) := rfl

theorem ratioValue_none_iff (yc te : ℚ) :
    ratioValue yc te = none ↔ yc = 0 ∧ te + 1 = 0 := by
  unfold ratioValue
  by_cases h0 : te + 1 = 0
  · by_cases hy : yc = 0
    · simp [h0, hy]
    · by_cases hp : 0 < yc <;> simp [h0, hy, hp]
  · simp [h0]

theorem ratioValue_some_bounds {yc te q : ℚ} (h : ratioValue yc te = some q) :
    12 / 100 ≤ q ∧ q ≤ 98 / 100 := by
  unfold ratioValue at h
  by_cases h0 : te + 1 = 0
  · rw [if_pos h0] at h
    by_cases hy : yc = 0
    · rw [if_pos hy] at h
      exact absurd h (by simp)
    · rw [if_neg hy] at h
      by_cases hp : 0 < yc
      · rw [if_pos hp] at h
        rw [← Option.some.inj h]
        norm_num
      · rw [if_neg hp] at h
        rw [← Option.some.inj h]
        norm_num
  · rw [if_neg h0] at h
    rw [← Option.some.inj h]
    exact ⟨clip_lower_bound _ _ _, clip_upper_bound (by norm_num) _⟩

/-- Example enrolment row: GOA / ALPHA, January 2020, age counts 1, 1, 0. -/
def exGoaJan : RawRow :=
  { state := Cell.str "GOA", district := Cell.str "ALPHA",
    date := Cell.str "01-01-2020", age_0_5 := Cell.num 1,
    age_5_17 := Cell.num 1, age_18_greater := Cell.num 0,
    demo_age_17_ := Cell.nan, bio_age_17_ := Cell.nan }

/-- Example enrolment row: GOA / ALPHA, February 2020, age counts 2, 2, 0. -/
def exGoaFeb : RawRow :=
  { state := Cell.str "GOA", district := Cell.str "ALPHA",
    date := Cell.str "01-02-2020", age_0_5 := Cell.num 2,
    age_5_17 := Cell.num 2, age_18_greater := Cell.num 0,
    demo_age_17_ := Cell.nan, bio_age_17_ := Cell.nan }

/-- Example demographic row: GOA / ALPHA, January 2020, update count 3. -/
def exDemoRow : RawRow :=
  { state := Cell.str "GOA", district := Cell.str "ALPHA",
    date := Cell.str "01-01-2020", age_0_5 := Cell.nan,
    age_5_17 := Cell.nan, age_18_greater := Cell.nan,
    demo_age_17_ := Cell.num 3, bio_age_17_ := Cell.nan }

/-- Example biometric row: GOA / ALPHA, January 2020, update count 4. -/
def exBioRow : RawRow :=
  { state := Cell.str "GOA", district := Cell.str "ALPHA",
    date := Cell.str "01-01-2020", age_0_5 := Cell.nan,
    age_5_17 := Cell.nan, age_18_greater := Cell.nan,
    demo_age_17_ := Cell.nan, bio_age_17_ := Cell.num 4 }

/-- Example enrolment row whose state text resolves to no canonical entity. -/
def exXyz : RawRow :=
  { state := Cell.str "XYZLAND", district := Cell.str "ALPHA",
    date := Cell.str "01-01-2020", age_0_5 := Cell.num 5,
    age_5_17 := Cell.num 1, age_18_greater := Cell.num 1,
    demo_age_17_ := Cell.nan, bio_age_17_ := Cell.nan }

/-- Example enrolment row carrying a district on the Telangana override
list under a different resolved state. -/
def exHyd : RawRow :=
  { state := Cell.str "ANDHRA PRADESH", district := Cell.str "Hyderabad",
    date := Cell.str "01-01-2020", age_0_5 := Cell.num 2,
    age_5_17 := Cell.num 3, age_18_greater := Cell.num 5,
    demo_age_17_ := Cell.nan, bio_age_17_ := Cell.nan }

/-- C7: for every input string that contains at least one digit character,
canonicalize returns the sentinel "REMOVE_ME" (the spec's UNRESOLVED), for
both the state (region) role and the district role. -/
theorem C7_digit_gives_remove_me (s : String)
    (h : s.data.any Char.isDigit = true) :
    canonicalize (Cell.str s) true = "REMOVE_ME"
      ∧ canonicalize (Cell.str s) false = "REMOVE_ME" := by
  constructor <;> simp [canonicalize, h]

theorem C7_digit_gives_remove_me_witness :
    "AB3".data.any Char.isDigit = true
      ∧ canonicalize (Cell.str "AB3") true = "REMOVE_ME"
      ∧ canonicalize (Cell.str "AB3") false = "REMOVE_ME" :=
  ⟨by decide, (C7_digit_gives_remove_me "AB3" (by decide)).1,
    (C7_digit_gives_remove_me "AB3" (by decide)).2⟩

/-- C9: canonicalize is total over arbitrary cell values: every non-string
cell (a numeric cell or a missing NaN cell) yields the "REMOVE_ME" sentinel
for both roles instead of raising. -/
theorem C9_nonstring_gives_remove_me (q : ℚ) (r1 r2 : Bool) :
    canonicalize (Cell.num q) r1 = "REMOVE_ME"
      ∧ canonicalize Cell.nan r2 = "REMOVE_ME" :=
  ⟨rfl, rfl⟩

/-- Example enrolment row whose noisy age counts sum to the feature values
youth 0 and total -1, the input that makes the line-103 division 0.0 / 0.0. -/
def exNoise : RawRow :=
  { state := Cell.str "GOA", district := Cell.str "ALPHA",
    date := Cell.str "01-01-2020", age_0_5 := Cell.num 5,
    age_5_17 := Cell.num (-5), age_18_greater := Cell.num (-1),
    demo_age_17_ := Cell.nan, bio_age_17_ := Cell.nan }

/-- Cleaned form of exNoise. -/
def cNoise : CleanRow :=
  { state := "GOA", district := "ALPHA", month := some 24240,
    age_0_5 := Cell.num 5, age_5_17 := Cell.num (-5),
    age_18_greater := Cell.num (-1),
    demo_age_17_ := Cell.nan, bio_age_17_ := Cell.nan }

/-- Second noisy enrolment row of the same shape under the key GOA / BETA. -/
def exNoiseBeta : RawRow :=
  { state := Cell.str "GOA", district := Cell.str "BETA",
    date := Cell.str "01-01-2020", age_0_5 := Cell.num 2,
    age_5_17 := Cell.num (-2), age_18_greater := Cell.num (-1),
    demo_age_17_ := Cell.nan, bio_age_17_ := Cell.nan }

/-- Cleaned form of exNoiseBeta. -/
def cNoiseBeta : CleanRow :=
  { state := "GOA", district := "BETA", month := some 24240,
    age_0_5 := Cell.num 2, age_5_17 := Cell.num (-2),
    age_18_greater := Cell.num (-1),
    demo_age_17_ := Cell.nan, bio_age_17_ := Cell.nan }

/-- C3 counterexample: a published row with youth_count 0 and
total_enrolment -1 (age counts 5, -5, -1 in one month) carries the NaN
ratio — published as null, not a number in [0, 0.98] — because the
epsilon-guarded denominator total_enrolment + 1 is exactly zero and
Series.clip propagates the resulting 0.0 / 0.0 NaN. -/
theorem C3_counterexample :
    metricsAt ([exNoise].map cleanRow) [] [] ("GOA", "ALPHA")
        ∈ pipelineRows [exNoise] [] []
      ∧ (metricsAt ([exNoise].map cleanRow) [] [] ("GOA", "ALPHA")).youth_count
          = 0
      ∧ (metricsAt ([exNoise].map cleanRow) [] []
          ("GOA", "ALPHA")).total_enrolment = -1
      ∧ (metricsAt ([exNoise].map cleanRow) [] [] ("GOA", "ALPHA")).ratio_clamped
          = none := by
  have h : [exNoise].map cleanRow = [cNoise] := by decide
  have hm : monthsOf [cNoise] ("GOA", "ALPHA") = {24240} := by decide
  have hy : meanMonthly [cNoise] ("GOA", "ALPHA") youthFeat = 0 := by
    simp only [meanMonthly, hm]
    norm_num [monthSum, rowsFor, keyMatch, youthFeat, cellToNum, cNoise,
      Finset.sum_singleton]
  have ht : meanMonthly [cNoise] ("GOA", "ALPHA") totalFeat = -1 := by
    simp only [meanMonthly, hm]
    norm_num [monthSum, rowsFor, keyMatch, totalFeat, cellToNum, cNoise,
      Finset.sum_singleton]
  refine ⟨mem_pipelineRows.mpr ⟨("GOA", "ALPHA"), by decide, rfl⟩, ?_, ?_, ?_⟩
  · rw [metricsAt_youth, h]
    exact hy
  · rw [metricsAt_total, h]
    exact ht
  · rw [metricsAt_ratio, h, hy, ht]
    norm_num [ratioValue]

/-- C3 amended: a published row's ratio is null exactly when youth_count
is 0 and total_enrolment is -1 (the vanishing epsilon-guarded denominator
makes the division NaN, which the clip propagates); every non-null
published ratio lies in [0, 0.98]. -/
theorem C3_ratio_bounds_or_nan (e d b : List RawRow) (row : MetricsRow)
    (h : row ∈ pipelineRows e d b) :
    (row.ratio_clamped = none
        ↔ row.youth_count = 0 ∧ row.total_enrolment + 1 = 0)
      ∧ ∀ q : ℚ, row.ratio_clamped = some q → 0 ≤ q ∧ q ≤ 98 / 100 := by
  obtain ⟨k, -, hEq⟩ := mem_pipelineRows.mp h
  subst hEq
  rw [metricsAt_ratio, metricsAt_youth, metricsAt_total]
  refine ⟨ratioValue_none_iff _ _, fun q hq => ?_⟩
  have hb := ratioValue_some_bounds hq
  exact ⟨le_trans (by norm_num) hb.1, hb.2⟩

theorem C3_ratio_bounds_or_nan_witness :
    ((metricsAt ([exGoaJan].map cleanRow) [] [] ("GOA", "ALPHA")).ratio_clamped
          = none
        ↔ (metricsAt ([exGoaJan].map cleanRow) [] [] ("GOA", "ALPHA")).youth_count
            = 0
          ∧ (metricsAt ([exGoaJan].map cleanRow) [] []
              ("GOA", "ALPHA")).total_enrolment + 1 = 0)
      ∧ ∀ q : ℚ, (metricsAt ([exGoaJan].map cleanRow) [] []
            ("GOA", "ALPHA")).ratio_clamped = some q →
          0 ≤ q ∧ q ≤ 98 / 100 :=
  C3_ratio_bounds_or_nan [exGoaJan] [] [] _
    (mem_pipelineRows.mpr ⟨("GOA", "ALPHA"), by decide, rfl⟩)

/-- C10 counterexample: a published row with youth_count 0 and
total_enrolment -1 (age counts 2, -2, -1 under GOA / BETA) has the null
ratio, so the claimed bound 0.12 ≤ ratio fails: the clip floor does not
reach the NaN path of the division. -/
theorem C10_counterexample :
    metricsAt ([exNoiseBeta].map cleanRow) [] [] ("GOA", "BETA")
        ∈ pipelineRows [exNoiseBeta] [] []
      ∧ (metricsAt ([exNoiseBeta].map cleanRow) [] []
          ("GOA", "BETA")).youth_count = 0
      ∧ (metricsAt ([exNoiseBeta].map cleanRow) [] []
          ("GOA", "BETA")).total_enrolment = -1
      ∧ (metricsAt ([exNoiseBeta].map cleanRow) [] []
          ("GOA", "BETA")).ratio_clamped = none := by
  have h : [exNoiseBeta].map cleanRow = [cNoiseBeta] := by decide
  have hm : monthsOf [cNoiseBeta] ("GOA", "BETA") = {24240} := by decide
  have hy : meanMonthly [cNoiseBeta] ("GOA", "BETA") youthFeat = 0 := by
    simp only [meanMonthly, hm]
    norm_num [monthSum, rowsFor, keyMatch, youthFeat, cellToNum, cNoiseBeta,
      Finset.sum_singleton]
  have ht : meanMonthly [cNoiseBeta] ("GOA", "BETA") totalFeat = -1 := by
    simp only [meanMonthly, hm]
    norm_num [monthSum, rowsFor, keyMatch, totalFeat, cellToNum, cNoiseBeta,
      Finset.sum_singleton]
  refine ⟨mem_pipelineRows.mpr ⟨("GOA", "BETA"), by decide, rfl⟩, ?_, ?_, ?_⟩
  · rw [metricsAt_youth, h]
    exact hy
  · rw [metricsAt_total, h]
    exact ht
  · rw [metricsAt_ratio, h, hy, ht]
    norm_num [ratioValue]

/-- C10 amended: every non-null published ratio lies in [0.12, 0.98] — the
clip floor is the strictly positive 0.12, so a non-null ratio is never 0,
and the ceiling is 0.98, not 1.0; the ratio is null exactly when
youth_count is 0 and total_enrolment is -1. -/
theorem C10_ratio_floor_or_nan (e d b : List RawRow) (row : MetricsRow)
    (h : row ∈ pipelineRows e d b) :
    (∀ q : ℚ, row.ratio_clamped = some q →
        12 / 100 ≤ q ∧ q ≤ 98 / 100 ∧ q ≠ 0)
      ∧ (row.ratio_clamped = none
          ↔ row.youth_count = 0 ∧ row.total_enrolment + 1 = 0) := by
  obtain ⟨k, -, hEq⟩ := mem_pipelineRows.mp h
  subst hEq
  rw [metricsAt_ratio, metricsAt_youth, metricsAt_total]
  refine ⟨fun q hq => ?_, ratioValue_none_iff _ _⟩
  have hb := ratioValue_some_bounds hq
  refine ⟨hb.1, hb.2, fun h0 => ?_⟩
  rw [h0] at hb
  norm_num at hb

theorem C10_ratio_floor_or_nan_witness :
    (∀ q : ℚ, (metricsAt ([exGoaFeb].map cleanRow) [] []
          ("GOA", "ALPHA")).ratio_clamped = some q →
        12 / 100 ≤ q ∧ q ≤ 98 / 100 ∧ q ≠ 0)
      ∧ ((metricsAt ([exGoaFeb].map cleanRow) [] []
            ("GOA", "ALPHA")).ratio_clamped = none
          ↔ (metricsAt ([exGoaFeb].map cleanRow) [] []
              ("GOA", "ALPHA")).youth_count = 0
            ∧ (metricsAt ([exGoaFeb].map cleanRow) [] []
                ("GOA", "ALPHA")).total_enrolment + 1 = 0) :=
  C10_ratio_floor_or_nan [exGoaFeb] [] [] _
    (mem_pipelineRows.mpr ⟨("GOA", "ALPHA"), by decide, rfl⟩)

/-- C4: the entity filter of ingest_data.py line 100 keeps exactly the
rows whose state is an official entity: every published row's state is one
of the 36 canonical names (hence never the "REMOVE_ME" sentinel), and every
aggregated key with an official state is published. -/
theorem C4_entity_filter (e d b : List RawRow) :
    (∀ row ∈ pipelineRows e d b,
        row.state ∈ OFFICIAL_ENTITIES ∧ row.state ≠ "REMOVE_ME")
      ∧ (∀ k ∈ keysOf (e.map cleanRow), k.1 ∈ OFFICIAL_ENTITIES →
          metricsAt (e.map cleanRow) (d.map cleanRow) (b.map cleanRow) k
            ∈ pipelineRows e d b)
      ∧ OFFICIAL_ENTITIES.length = 36 := by
  refine ⟨?_, ?_, rfl⟩
  · intro row h
    obtain ⟨k, hk, hEq⟩ := mem_pipelineRows.mp h
    obtain ⟨-, hoff⟩ := mem_finalKeys.mp hk
    subst hEq
    rw [metricsAt_state]
    refine ⟨hoff, fun hbad => ?_⟩
    rw [hbad] at hoff
    exact absurd hoff (by decide)
  · intro k hk hoff
    exact mem_pipelineRows.mpr ⟨k, mem_finalKeys.mpr ⟨hk, hoff⟩, rfl⟩

theorem C4_entity_filter_witness :
    ((metricsAt ([exGoaJan].map cleanRow) [] [] ("GOA", "ALPHA")).state
        ∈ OFFICIAL_ENTITIES
      ∧ (metricsAt ([exGoaJan].map cleanRow) [] [] ("GOA", "ALPHA")).state
          ≠ "REMOVE_ME")
      ∧ metricsAt ([exGoaJan].map cleanRow) [] [] ("GOA", "ALPHA")
          ∈ pipelineRows [exGoaJan] [] [] :=
  ⟨(C4_entity_filter [exGoaJan] [] []).1 _
      ((C4_entity_filter [exGoaJan] [] []).2.1 ("GOA", "ALPHA")
        (by decide) (by decide)),
    (C4_entity_filter [exGoaJan] [] []).2.1 ("GOA", "ALPHA")
      (by decide) (by decide)⟩

theorem cleanRow_district (r : RawRow) :
    (cleanRow r).district = canonicalize r.district false := rfl

theorem cleanRow_state_telangana {r : RawRow}
    (h : canonicalize r.district false ∈ TELANGANA_DISTRICTS) :
    (cleanRow r).state = "TELANGANA" := by
  simp only [cleanRow]
  rw [if_pos (List.elem_eq_true_of_mem h)]

/-- C6: the Telangana override of ingest_data.py line 75 is applied before
the aggregation grouping: a cleaned row whose district is on the override
list carries state "TELANGANA"; no published row pairs an override district
with another state; and the "TELANGANA" group of an override district
collects every cleaned enrolment row with that district, whatever state the
raw row carried. -/
theorem C6_reassign_before_grouping (e d b : List RawRow) :
    (∀ r : RawRow, canonicalize r.district false ∈ TELANGANA_DISTRICTS →
        (cleanRow r).state = "TELANGANA")
      ∧ (∀ row ∈ pipelineRows e d b, row.district ∈ TELANGANA_DISTRICTS →
          row.state = "TELANGANA")
      ∧ (∀ dist ∈ TELANGANA_DISTRICTS,
          rowsFor (e.map cleanRow) ("TELANGANA", dist)
            = (e.map cleanRow).filter (fun r => r.district == dist)) := by
  refine ⟨fun r h => cleanRow_state_telangana h, ?_, ?_⟩
  · intro row hrow hdist
    obtain ⟨k, hk, hEq⟩ := mem_pipelineRows.mp hrow
    obtain ⟨hkeys, -⟩ := mem_finalKeys.mp hk
    obtain ⟨r, hr, -, hkk⟩ := mem_keysOf.mp hkeys
    obtain ⟨r0, -, rfl⟩ := List.mem_map.mp hr
    subst hEq
    rw [metricsAt_district] at hdist
    rw [metricsAt_state, ← hkk]
    rw [← hkk] at hdist
    exact cleanRow_state_telangana hdist
  · intro dist hdist
    unfold rowsFor
    refine List.filter_congr ?_
    intro r hr
    obtain ⟨r0, -, rfl⟩ := List.mem_map.mp hr
    by_cases hd : (cleanRow r0).district = dist
    · have hst : (cleanRow r0).state = "TELANGANA" :=
        cleanRow_state_telangana (by rw [← cleanRow_district, hd]; exact hdist)
      simp [keyMatch, hst, hd]
    · simp [keyMatch, hd]

theorem C6_reassign_before_grouping_witness :
    (cleanRow exHyd).state = "TELANGANA"
      ∧ rowsFor ([exHyd].map cleanRow) ("TELANGANA", "HYDERABAD")
          = ([exHyd].map cleanRow).filter (fun r => r.district == "HYDERABAD") :=
  ⟨(C6_reassign_before_grouping [] [] []).1 exHyd (by decide),
    (C6_reassign_before_grouping [exHyd] [] []).2.2 "HYDERABAD" (by decide)⟩

/-- Example demographic row keyed GOA / BETA, away from the GOA / ALPHA
enrolment key. -/
def exDemoBeta : RawRow :=
  { state := Cell.str "GOA", district := Cell.str "BETA",
    date := Cell.str "01-01-2020", age_0_5 := Cell.nan,
    age_5_17 := Cell.nan, age_18_greater := Cell.nan,
    demo_age_17_ := Cell.num 3, bio_age_17_ := Cell.nan }

/-- Example biometric row keyed GOA / BETA. -/
def exBioBeta : RawRow :=
  { state := Cell.str "GOA", district := Cell.str "BETA",
    date := Cell.str "01-01-2020", age_0_5 := Cell.nan,
    age_5_17 := Cell.nan, age_18_greater := Cell.nan,
    demo_age_17_ := Cell.nan, bio_age_17_ := Cell.num 4 }

/-- C5 counterexample: an enrolment aggregate key whose state resolved to
no canonical entity is dropped by the entity filter, so the published table
is empty even though the enrolment aggregate holds the key — the claim that
every enrolment key appears in the final snapshot fails. -/
theorem C5_counterexample :
    ("XYZLAND", "ALPHA") ∈ keysOf ([exXyz].map cleanRow)
      ∧ pipelineRows [exXyz] [exDemoRow] [exBioRow] = ∅ :=
  ⟨by decide, by decide⟩

/-- C5 amended: every enrolment aggregate key whose state is an official
entity appears in the final snapshot even when the demographic and
biometric aggregates lack the key; the missing categories contribute zero,
so mobile_update_volume is 0 — the row is not omitted. -/
theorem C5_left_join_zero_fill (e d b : List RawRow) (k : String × String)
    (h1 : k ∈ keysOf (e.map cleanRow)) (h2 : k.1 ∈ OFFICIAL_ENTITIES)
    (h3 : k ∉ keysOf (d.map cleanRow)) (h4 : k ∉ keysOf (b.map cleanRow)) :
    metricsAt (e.map cleanRow) (d.map cleanRow) (b.map cleanRow) k
        ∈ pipelineRows e d b
      ∧ (metricsAt (e.map cleanRow) (d.map cleanRow) (b.map cleanRow) k).demo_vol
          = 0
      ∧ (metricsAt (e.map cleanRow) (d.map cleanRow) (b.map cleanRow) k).bio_vol
          = 0
      ∧ (metricsAt (e.map cleanRow) (d.map cleanRow)
          (b.map cleanRow) k).mobile_update_volume = 0 := by
  refine ⟨mem_pipelineRows.mpr ⟨k, mem_finalKeys.mpr ⟨h1, h2⟩, rfl⟩, ?_, ?_, ?_⟩
  · rw [metricsAt_demo_vol, if_neg h3]
  · rw [metricsAt_bio_vol, if_neg h4]
  · rw [metricsAt_mobile, if_neg h3, if_neg h4, add_zero]

theorem C5_left_join_zero_fill_witness :
    metricsAt ([exGoaJan].map cleanRow) ([exDemoBeta].map cleanRow)
        ([exBioBeta].map cleanRow) ("GOA", "ALPHA")
        ∈ pipelineRows [exGoaJan] [exDemoBeta] [exBioBeta]
      ∧ (metricsAt ([exGoaJan].map cleanRow) ([exDemoBeta].map cleanRow)
          ([exBioBeta].map cleanRow) ("GOA", "ALPHA")).mobile_update_volume = 0 :=
  ⟨(C5_left_join_zero_fill [exGoaJan] [exDemoBeta] [exBioBeta] ("GOA", "ALPHA")
      (by decide) (by decide) (by decide) (by decide)).1,
    (C5_left_join_zero_fill [exGoaJan] [exDemoBeta] [exBioBeta] ("GOA", "ALPHA")
      (by decide) (by decide) (by decide) (by decide)).2.2.2⟩

/-- Cleaned form of exGoaJan. -/
def cGoaJan : CleanRow :=
  { state := "GOA", district := "ALPHA", month := some 24240,
    age_0_5 := Cell.num 1, age_5_17 := Cell.num 1, age_18_greater := Cell.num 0,
    demo_age_17_ := Cell.nan, bio_age_17_ := Cell.nan }

/-- Cleaned form of exGoaFeb. -/
def cGoaFeb : CleanRow :=
  { state := "GOA", district := "ALPHA", month := some 24241,
    age_0_5 := Cell.num 2, age_5_17 := Cell.num 2, age_18_greater := Cell.num 0,
    demo_age_17_ := Cell.nan, bio_age_17_ := Cell.nan }

/-- C1 counterexample: two enrolment rows for the same (GOA, ALPHA) key in
two different months, with feature totals 2 and 4, produce the published
total_enrolment 3 — the mean of the monthly sums — while the sum over all
records of the key is 6, so the claim that the output equals the plain sum
fails. -/
theorem C1_counterexample :
    ("GOA", "ALPHA") ∈ finalKeys ([exGoaJan, exGoaFeb].map cleanRow)
      ∧ (metricsAt ([exGoaJan, exGoaFeb].map cleanRow) [] []
          ("GOA", "ALPHA")).total_enrolment = 3
      ∧ flatSum ([exGoaJan, exGoaFeb].map cleanRow) ("GOA", "ALPHA") totalFeat = 6
      ∧ (3 : ℚ) ≠ 6 := by
  have h : [exGoaJan, exGoaFeb].map cleanRow = [cGoaJan, cGoaFeb] := by decide
  have hm : monthsOf [cGoaJan, cGoaFeb] ("GOA", "ALPHA") = {24240, 24241} := by
    decide
  refine ⟨by decide, ?_, ?_, by norm_num⟩
  · rw [metricsAt_total, h]
    simp only [meanMonthly, hm]
    norm_num [monthSum, rowsFor, keyMatch, totalFeat, cellToNum, cGoaJan,
      cGoaFeb, Finset.sum_insert, Finset.sum_singleton]
  · rw [h]
    norm_num [flatSum, rowsFor, keyMatch, totalFeat, cellToNum, cGoaJan, cGoaFeb]

/-- C1 amended: for every key of the enrolment aggregate, the published
total_enrolment and youth_count equal the sum of the coerced feature over
the key's records that carry a parseable date, divided by the key's number
of distinct months (the mean of the monthly sums); the category volume
fields obey the same monthly-mean formula on their own category's records;
records sharing (state, district, month) are merged by summation inside the
monthly sums. -/
theorem C1_monthly_mean_aggregation (e d b : List RawRow) (k : String × String)
    (hk : k ∈ keysOf (e.map cleanRow)) :
    0 < (monthsOf (e.map cleanRow) k).card
      ∧ (metricsAt (e.map cleanRow) (d.map cleanRow)
            (b.map cleanRow) k).total_enrolment
          = flatSum (e.map cleanRow) k totalFeat
            / (monthsOf (e.map cleanRow) k).card
      ∧ (metricsAt (e.map cleanRow) (d.map cleanRow)
            (b.map cleanRow) k).youth_count
          = flatSum (e.map cleanRow) k youthFeat
            / (monthsOf (e.map cleanRow) k).card
      ∧ (k ∈ keysOf (d.map cleanRow) →
          (metricsAt (e.map cleanRow) (d.map cleanRow)
              (b.map cleanRow) k).demo_vol
            = flatSum (d.map cleanRow) k demoFeat
              / (monthsOf (d.map cleanRow) k).card)
      ∧ (k ∈ keysOf (b.map cleanRow) →
          (metricsAt (e.map cleanRow) (d.map cleanRow)
              (b.map cleanRow) k).bio_vol
            = flatSum (b.map cleanRow) k bioFeat
              / (monthsOf (b.map cleanRow) k).card) := by
  refine ⟨Finset.card_pos.mpr (monthsOf_nonempty_of_mem_keysOf hk),
    ?_, ?_, ?_, ?_⟩
  · rw [metricsAt_total, meanMonthly_eq_flatSum_div]
  · rw [metricsAt_youth, meanMonthly_eq_flatSum_div]
  · intro hd
    rw [metricsAt_demo_vol, if_pos hd, meanMonthly_eq_flatSum_div]
  · intro hb
    rw [metricsAt_bio_vol, if_pos hb, meanMonthly_eq_flatSum_div]

theorem C1_monthly_mean_aggregation_witness :
    0 < (monthsOf ([exGoaJan, exGoaFeb].map cleanRow) ("GOA", "ALPHA")).card
      ∧ (metricsAt ([exGoaJan, exGoaFeb].map cleanRow)
            ([exDemoRow].map cleanRow)
            ([exBioRow].map cleanRow) ("GOA", "ALPHA")).total_enrolment
          = flatSum ([exGoaJan, exGoaFeb].map cleanRow) ("GOA", "ALPHA") totalFeat
            / (monthsOf ([exGoaJan, exGoaFeb].map cleanRow) ("GOA", "ALPHA")).card
      ∧ (metricsAt ([exGoaJan, exGoaFeb].map cleanRow)
            ([exDemoRow].map cleanRow)
            ([exBioRow].map cleanRow) ("GOA", "ALPHA")).demo_vol
          = flatSum ([exDemoRow].map cleanRow) ("GOA", "ALPHA") demoFeat
            / (monthsOf ([exDemoRow].map cleanRow) ("GOA", "ALPHA")).card :=
  ⟨(C1_monthly_mean_aggregation [exGoaJan, exGoaFeb] [exDemoRow] [exBioRow]
      ("GOA", "ALPHA") (by decide)).1,
    (C1_monthly_mean_aggregation [exGoaJan, exGoaFeb] [exDemoRow] [exBioRow]
      ("GOA", "ALPHA") (by decide)).2.1,
    (C1_monthly_mean_aggregation [exGoaJan, exGoaFeb] [exDemoRow] [exBioRow]
      ("GOA", "ALPHA") (by decide)).2.2.2.1 (by decide)⟩

/-- C2 counterexample: the loader does return an empty result for a
file-less directory, but the run does not complete with a zero
contribution: an absent biometric category makes the cleaning loop raise
KeyError, and an absent enrolment category makes main abort at its empty
guard. -/
theorem C2_counterexample :
    load_chunked_data [] = none
      ∧ runMain (some [exGoaJan]) (some [exDemoRow]) (load_chunked_data [])
          = RunResult.keyError
      ∧ runMain (load_chunked_data []) (some [exDemoRow]) (some [exBioRow])
          = RunResult.abortedEmpty :=
  ⟨rfl, rfl, rfl⟩

/-- C2 amended: load_chunked_data returns the empty (column-less) result
rather than raising when a category directory has no files; however main
aborts without a snapshot when the enrolment or demographic data is empty,
and raises KeyError when the biometric directory is absent or file-less;
only a biometric category whose files carry zero data rows completes with
an all-zero biometric contribution. -/
theorem C2_missing_category_behavior (e d : List RawRow) (he : e ≠ [])
    (hd : d ≠ []) :
    load_chunked_data [] = none
      ∧ runMain none (some d) (some e) = RunResult.abortedEmpty
      ∧ runMain (some e) none (some d) = RunResult.abortedEmpty
      ∧ runMain (some e) (some d) none = RunResult.keyError
      ∧ runMain (some e) (some d) (some []) = RunResult.ok (pipelineRows e d [])
      ∧ ∀ k, (metricsAt (e.map cleanRow) (d.map cleanRow)
          ([] : List CleanRow) k).bio_vol = 0 := by
  have hee : isEmptyLoad (some e) = false := by
    cases e with
    | nil => exact absurd rfl he
    | cons a t => rfl
  have hdd : isEmptyLoad (some d) = false := by
    cases d with
    | nil => exact absurd rfl hd
    | cons a t => rfl
  refine ⟨rfl, rfl, ?_, ?_, ?_, ?_⟩
  · simp [runMain, hee, isEmptyLoad]
  · simp [runMain, hee, hdd]
  · simp [runMain, hee, hdd]
  · intro k
    rw [metricsAt_bio_vol, if_neg (by simp [keysOf])]

theorem C2_missing_category_behavior_witness :
    runMain (some [exGoaJan]) (some [exDemoRow]) none = RunResult.keyError
      ∧ runMain (some [exGoaJan]) (some [exDemoRow]) (some [])
          = RunResult.ok (pipelineRows [exGoaJan] [exDemoRow] [])
      ∧ (metricsAt ([exGoaJan].map cleanRow) ([exDemoRow].map cleanRow)
          ([] : List CleanRow) ("GOA", "ALPHA")).bio_vol = 0 :=
  ⟨(C2_missing_category_behavior [exGoaJan] [exDemoRow]
      (by decide) (by decide)).2.2.2.1,
    (C2_missing_category_behavior [exGoaJan] [exDemoRow]
      (by decide) (by decide)).2.2.2.2.1,
    (C2_missing_category_behavior [exGoaJan] [exDemoRow]
      (by decide) (by decide)).2.2.2.2.2 ("GOA", "ALPHA")⟩

theorem isEmpty_eq_of_perm {α : Type} {l l' : List α} (h : l.Perm l') :
    l.isEmpty = l'.isEmpty := by
  cases l with
  | nil =>
    have hnil : l' = [] := h.symm.eq_nil
    rw [hnil]
  | cons a t =>
    cases l' with
    | nil => exact absurd h.eq_nil (by simp)
    | cons c u => rfl

theorem isEmptyLoad_perm {x y : List (List RawRow)} (hxy : x.Perm y) :
    isEmptyLoad (load_chunked_data x) = isEmptyLoad (load_chunked_data y) := by
  cases x with
  | nil =>
    have hnil : y = [] := hxy.symm.eq_nil
    rw [hnil]
  | cons a t =>
    cases y with
    | nil => exact absurd hxy.eq_nil (by simp)
    | cons c u => exact isEmpty_eq_of_perm (flatten_perm_of_perm hxy)

theorem getD_load_perm {x y : List (List RawRow)} (hxy : x.Perm y) :
    ((load_chunked_data x).getD []).Perm ((load_chunked_data y).getD []) := by
  cases x with
  | nil =>
    have hnil : y = [] := hxy.symm.eq_nil
    rw [hnil]
  | cons a t =>
    cases y with
    | nil => exact absurd hxy.eq_nil (by simp)
    | cons c u => exact flatten_perm_of_perm hxy

theorem runMain_load_perm {ef ef' df df' bf bf' : List (List RawRow)}
    (he : ef.Perm ef') (hd : df.Perm df') (hb : bf.Perm bf') :
    runMain (load_chunked_data ef) (load_chunked_data df) (load_chunked_data bf)
      = runMain (load_chunked_data ef') (load_chunked_data df')
          (load_chunked_data bf') := by
  by_cases hc : (isEmptyLoad (load_chunked_data ef)
      || isEmptyLoad (load_chunked_data df)) = true
  · have hc' : (isEmptyLoad (load_chunked_data ef')
        || isEmptyLoad (load_chunked_data df')) = true := by
      rw [← isEmptyLoad_perm he, ← isEmptyLoad_perm hd]
      exact hc
    unfold runMain
    rw [if_pos hc, if_pos hc']
  · have hc' : ¬ (isEmptyLoad (load_chunked_data ef')
        || isEmptyLoad (load_chunked_data df')) = true := by
      rw [← isEmptyLoad_perm he, ← isEmptyLoad_perm hd]
      exact hc
    unfold runMain
    rw [if_neg hc, if_neg hc']
    cases bf with
    | nil =>
      have hbnil : bf' = [] := hb.symm.eq_nil
      rw [hbnil]
      rfl
    | cons a t =>
      cases bf' with
      | nil => exact absurd hb.eq_nil (by simp)
      | cons c u =>
        show RunResult.ok _ = RunResult.ok _
        congr 1
        exact pipelineRows_perm (getD_load_perm he) (getD_load_perm hd)
          (flatten_perm_of_perm hb)

/-- C8: permuting a category's input file list leaves the published
MetricsRow set unchanged, both at the level of the row pipeline applied to
the concatenated records and at the level of a whole main run on the loaded
categories. -/
theorem C8_file_order_irrelevant (ef ef' df df' bf bf' : List (List RawRow))
    (he : ef.Perm ef') (hd : df.Perm df') (hb : bf.Perm bf') :
    pipelineRows ef.flatten df.flatten bf.flatten
        = pipelineRows ef'.flatten df'.flatten bf'.flatten
      ∧ runMain (load_chunked_data ef) (load_chunked_data df)
            (load_chunked_data bf)
          = runMain (load_chunked_data ef') (load_chunked_data df')
              (load_chunked_data bf') :=
  ⟨pipelineRows_perm (flatten_perm_of_perm he) (flatten_perm_of_perm hd)
      (flatten_perm_of_perm hb),
    runMain_load_perm he hd hb⟩

theorem C8_file_order_irrelevant_witness :
    ([[exGoaJan], [exGoaFeb]] : List (List RawRow)).Perm
        [[exGoaFeb], [exGoaJan]]
      ∧ pipelineRows ([[exGoaJan], [exGoaFeb]] : List (List RawRow)).flatten
            [[exDemoRow]].flatten [[exBioRow]].flatten
          = pipelineRows ([[exGoaFeb], [exGoaJan]] : List (List RawRow)).flatten
              [[exDemoRow]].flatten [[exBioRow]].flatten :=
  ⟨List.Perm.swap [exGoaFeb] [exGoaJan] [],
    (C8_file_order_irrelevant [[exGoaJan], [exGoaFeb]] [[exGoaFeb], [exGoaJan]]
      [[exDemoRow]] [[exDemoRow]] [[exBioRow]] [[exBioRow]]
      (List.Perm.swap [exGoaFeb] [exGoaJan] [])
      (List.Perm.refl _) (List.Perm.refl _)).1⟩

end Darpan
